import Mathlib

/-!
Verification of the GoMongoDB wrapper (src/index.js).

The repository is a thin convenience wrapper around the external MongoDB
node driver: a `GoMongoDB` class owning one `MongoClient`, with lazy
connect and four CRUD passthrough operations (find, update, add, remove).

The wrapper methods below are translated directly from src/index.js.
The underlying driver (the `mongodb` package) is not part of the
repository; its surface is modelled from the spec's description of the
external interface as an executable test double: a client state holding a
connection flag, a connect-call counter (the spec's "call-count
instrumentation on a test double"), a document store, and fault-injection
slots that make any driver primitive fail with an arbitrary injected
error, so that error-propagation claims quantify over every failure.
-/

namespace GoMongo

/-- A document: an ordered association list of field names to values. -/
abbrev Doc := List (String × String)

/-- A filter: field/value constraints; the empty filter constrains nothing. -/
abbrev Filter := List (String × String)

/-- An update specification, modelled as a set of field assignments. -/
abbrev UpdateSpec := List (String × String)

/-- Opaque driver options, passed through unmodified and ignored by the model driver. -/
abbrev Options := List (String × String)

/-- Errors raised by the underlying client are opaque values. -/
abbrev Err := String

/-- Look up a field of a document. -/
def getField (doc : Doc) (key : String) : Option String :=
  match doc.find? (fun kv => kv.1 == key) with
  | some kv => some kv.2
  | none => none

/-- Modelled from the spec: "Filter: a structured value selecting which documents an
operation targets; empty means match all."  A document matches when every field of the
filter is present in the document with the given value. -/
def matchesFilter (filter : Filter) (doc : Doc) : Bool :=
  filter.all (fun kv => getField doc kv.1 == some kv.2)

/-- Set a field of a document: replace its value when present, append it otherwise. -/
def setField (doc : Doc) (key value : String) : Doc :=
  if doc.any (fun kv => kv.1 == key) then
    doc.map (fun kv => if kv.1 == key then (key, value) else kv)
  else
    doc ++ [(key, value)]

/-- Modelled from the spec: applying an update specification to one document
(field assignments, in order). -/
def applyUpdate (upd : UpdateSpec) (doc : Doc) : Doc :=
  upd.foldl (fun d kv => setField d kv.1 kv.2) doc

/-- The server-side data: collections of documents keyed by database and collection name. -/
abbrev Store := List ((String × String) × List Doc)

/-- The ordered document list of one collection (absent collections are empty). -/
def getColl (s : Store) (db coll : String) : List Doc :=
  match s with
  | [] => []
  | e :: rest => if e.1 == (db, coll) then e.2 else getColl rest db coll

/-- Replace the document list of one collection, creating it when absent. -/
def setColl (s : Store) (db coll : String) (docs : List Doc) : Store :=
  match s with
  | [] => [((db, coll), docs)]
  | e :: rest =>
    if e.1 == (db, coll) then ((db, coll), docs) :: rest
    else e :: setColl rest db coll docs

/-- Modelled from the spec: the state of the external MongoDB client.  It carries the
connection URL it was constructed from, the connected/closed lifecycle flags, a counter
of connect calls (the spec's call-count instrumentation), the document store, and one
fault-injection slot per driver primitive: when a slot holds an error, that primitive
fails with exactly that error, letting theorems quantify over every driver failure. -/
structure MongoClient where
  url : String
  connected : Bool
  closed : Bool
  connectCalls : Nat
  store : Store
  connectError : Option Err
  findError : Option Err
  updateError : Option Err
  insertError : Option Err
  deleteError : Option Err
deriving DecidableEq

/-- Modelled from the spec: client construction from a connection URL "does not perform
network I/O" and raises no error for malformed URLs; the URL is stored as given. -/
def MongoClient.make (connection_url : String) : MongoClient :=
  { url := connection_url, connected := false, closed := false, connectCalls := 0,
    store := [], connectError := none, findError := none, updateError := none,
    insertError := none, deleteError := none }

/-- The driver's isConnected(): reports whether the client is in a connected state. -/
def MongoClient.isConnected (c : MongoClient) : Bool :=
  c.connected

/-- Modelled from the spec: the driver's connect() performs the network connection
(counted by `connectCalls`); with an injected connection failure it raises that error. -/
def MongoClient.connect (c : MongoClient) : Except Err MongoClient :=
  match c.connectError with
  | some e => Except.error e
  | none => Except.ok { c with connected := true, connectCalls := c.connectCalls + 1 }

/-- Modelled from the spec: the driver's close() "closes the underlying connection
permanently". -/
def MongoClient.close (c : MongoClient) : MongoClient :=
  { c with connected := false, closed := true }

/-- A database reference: a transient view resolved by name from the client. -/
structure Db where
  client : MongoClient
  name : String
deriving DecidableEq

/-- A collection reference: a transient view resolved by name within a database. -/
structure Collection where
  client : MongoClient
  dbName : String
  collName : String
deriving DecidableEq

/-- The driver's db(name): a pure lookup with no validation of the name format. -/
def MongoClient.db (c : MongoClient) (database_name : String) : Db :=
  { client := c, name := database_name }

/-- The driver's collection(name) on a database reference: a pure lookup. -/
def Db.collection (d : Db) (collection_name : String) : Collection :=
  { client := d.client, dbName := d.name, collName := collection_name }

/-- The driver's lazy cursor: it records the query and reads nothing until consumed. -/
structure Cursor where
  coll : Collection
  filter : Filter
deriving DecidableEq

/-- The driver's find(filter): returns a lazy cursor over the matching documents. -/
def Collection.find (col : Collection) (filter : Filter) : Cursor :=
  { coll := col, filter := filter }

/-- Modelled from the spec: toArray() materializes the cursor eagerly into the full
list of matching documents, in the collection's natural order. -/
def Cursor.toArray (cur : Cursor) : Except Err (List Doc) :=
  match cur.coll.client.findError with
  | some e => Except.error e
  | none =>
    Except.ok ((getColl cur.coll.client.store cur.coll.dbName cur.coll.collName).filter
      (matchesFilter cur.filter))

/-- The driver's updateMany result summary: counts of matched and modified documents. -/
structure UpdateResult where
  matchedCount : Nat
  modifiedCount : Nat
deriving DecidableEq

/-- Modelled from the spec: updateMany "applies the update specification to every
document matching the filter" and returns the matched/modified counts; a modified
document is a matched one actually changed by the update.  Options are opaque and
ignored by the model driver. -/
def Collection.updateMany (col : Collection) (filter : Filter) (upd : UpdateSpec)
    (_options : Options) : Except Err (UpdateResult × MongoClient) :=
  match col.client.updateError with
  | some e => Except.error e
  | none =>
    let docs := getColl col.client.store col.dbName col.collName
    let newDocs := docs.map (fun d => if matchesFilter filter d then applyUpdate upd d else d)
    Except.ok
      ({ matchedCount := (docs.filter (matchesFilter filter)).length,
         modifiedCount :=
           (docs.filter (fun d => matchesFilter filter d && applyUpdate upd d != d)).length },
       { col.client with store := setColl col.client.store col.dbName col.collName newDocs })

/-- The driver's insertMany result summary. -/
structure InsertResult where
  insertedCount : Nat
deriving DecidableEq

/-- Modelled from the spec: insertMany "inserts each item in the given ordered sequence
as a new document"; "An empty sequence is a valid no-op insert call." -/
def Collection.insertMany (col : Collection) (items : List Doc)
    (_options : Options) : Except Err (InsertResult × MongoClient) :=
  match col.client.insertError with
  | some e => Except.error e
  | none =>
    let docs := getColl col.client.store col.dbName col.collName
    Except.ok
      ({ insertedCount := items.length },
       { col.client with store := setColl col.client.store col.dbName col.collName (docs ++ items) })

/-- The driver's deleteMany result summary. -/
structure DeleteResult where
  deletedCount : Nat
deriving DecidableEq

/-- Modelled from the spec: deleteMany "deletes every document matching the filter". -/
def Collection.deleteMany (col : Collection) (filter : Filter)
    (_options : Options) : Except Err (DeleteResult × MongoClient) :=
  match col.client.deleteError with
  | some e => Except.error e
  | none =>
    let docs := getColl col.client.store col.dbName col.collName
    Except.ok
      ({ deletedCount := (docs.filter (matchesFilter filter)).length },
       { col.client with
           store := setColl col.client.store col.dbName col.collName
             (docs.filter (fun d => !(matchesFilter filter d))) })

/-- JavaScript try/catch over a fallible computation: run the body; when it throws,
run the handler on the caught error. -/
def tryCatch {α : Type} (body : Except Err α) (handler : Err → Except Err α) :
    Except Err α :=
  match body with
  | Except.error e => handler e
  | Except.ok a => Except.ok a

/-- The wrapper handle from src/index.js: it owns one underlying client.
The private field and its getter coincide in the model. -/
structure GoMongoDB where
  client : MongoClient
deriving DecidableEq

/-- src/index.js constructor: stores the URL by instantiating the underlying client
from it.  A total function: construction itself never throws. -/
def GoMongoDB.make (connection_url : String) : GoMongoDB :=
  { client := MongoClient.make connection_url }

/-- src/index.js connect(): if the client is not connected, connect it; return this. -/
def GoMongoDB.connect (h : GoMongoDB) : Except Err GoMongoDB :=
  if !(h.client.isConnected) then
    match h.client.connect with
    | Except.error e => Except.error e
    | Except.ok c => Except.ok { client := c }
  else
    Except.ok h

/-- src/index.js destroy(): closes the connection with no way to re-connect. -/
def GoMongoDB.destroy (h : GoMongoDB) : Except Err GoMongoDB :=
  Except.ok { client := h.client.close }

/-- src/index.js database(): fetches the specified database. -/
def GoMongoDB.database (h : GoMongoDB) (database_name : String) : Db :=
  h.client.db database_name

/-- src/index.js collection(): fetches the specified collection from the database. -/
def GoMongoDB.collection (h : GoMongoDB) (database_name collection_name : String) :
    Collection :=
  (h.database database_name).collection collection_name

/-- src/index.js find(): connect, then collection(...).find(filter).toArray(),
inside a try/catch whose catch rethrows the caught error. -/
def GoMongoDB.find (h : GoMongoDB) (database_name collection_name : String)
    (filter : Filter) : Except Err (List Doc × GoMongoDB) :=
  tryCatch
    (match h.connect with
     | Except.error e => Except.error e
     | Except.ok h2 =>
       match ((h2.collection database_name collection_name).find filter).toArray with
       | Except.error e => Except.error e
       | Except.ok docs => Except.ok (docs, h2))
    (fun error => Except.error error)

/-- src/index.js update(): connect, then collection(...).updateMany(filter, update,
options), inside a try/catch whose catch rethrows the caught error. -/
def GoMongoDB.update (h : GoMongoDB) (database_name collection_name : String)
    (filter : Filter) (update : UpdateSpec) (options : Options) :
    Except Err (UpdateResult × GoMongoDB) :=
  tryCatch
    (match h.connect with
     | Except.error e => Except.error e
     | Except.ok h2 =>
       match (h2.collection database_name collection_name).updateMany filter update options with
       | Except.error e => Except.error e
       | Except.ok r => Except.ok (r.1, { client := r.2 }))
    (fun error => Except.error error)

/-- src/index.js add(): connect, then collection(...).insertMany(items, options),
inside a try/catch whose catch rethrows the caught error. -/
def GoMongoDB.add (h : GoMongoDB) (database_name collection_name : String)
    (items : List Doc) (options : Options) :
    Except Err (InsertResult × GoMongoDB) :=
  tryCatch
    (match h.connect with
     | Except.error e => Except.error e
     | Except.ok h2 =>
       match (h2.collection database_name collection_name).insertMany items options with
       | Except.error e => Except.error e
       | Except.ok r => Except.ok (r.1, { client := r.2 }))
    (fun error => Except.error error)

/-- src/index.js remove(): connect, then collection(...).deleteMany(filter, options),
inside a try/catch whose catch rethrows the caught error. -/
def GoMongoDB.remove (h : GoMongoDB) (database_name collection_name : String)
    (filter : Filter) (options : Options) :
    Except Err (DeleteResult × GoMongoDB) :=
  tryCatch
    (match h.connect with
     | Except.error e => Except.error e
     | Except.ok h2 =>
       match (h2.collection database_name collection_name).deleteMany filter options with
       | Except.error e => Except.error e
       | Except.ok r => Except.ok (r.1, { client := r.2 }))
    (fun error => Except.error error)

/-- src/index.js find() with the observably dead try/catch removed: connect, then
direct delegation to the driver. -/
def GoMongoDB.findDirect (h : GoMongoDB) (database_name collection_name : String)
    (filter : Filter) : Except Err (List Doc × GoMongoDB) :=
  match h.connect with
  | Except.error e => Except.error e
  | Except.ok h2 =>
    match ((h2.collection database_name collection_name).find filter).toArray with
    | Except.error e => Except.error e
    | Except.ok docs => Except.ok (docs, h2)

/-- src/index.js update() with the observably dead try/catch removed. -/
def GoMongoDB.updateDirect (h : GoMongoDB) (database_name collection_name : String)
    (filter : Filter) (update : UpdateSpec) (options : Options) :
    Except Err (UpdateResult × GoMongoDB) :=
  match h.connect with
  | Except.error e => Except.error e
  | Except.ok h2 =>
    match (h2.collection database_name collection_name).updateMany filter update options with
    | Except.error e => Except.error e
    | Except.ok r => Except.ok (r.1, { client := r.2 })

/-- src/index.js add() with the observably dead try/catch removed. -/
def GoMongoDB.addDirect (h : GoMongoDB) (database_name collection_name : String)
    (items : List Doc) (options : Options) :
    Except Err (InsertResult × GoMongoDB) :=
  match h.connect with
  | Except.error e => Except.error e
  | Except.ok h2 =>
    match (h2.collection database_name collection_name).insertMany items options with
    | Except.error e => Except.error e
    | Except.ok r => Except.ok (r.1, { client := r.2 })

/-- src/index.js remove() with the observably dead try/catch removed. -/
def GoMongoDB.removeDirect (h : GoMongoDB) (database_name collection_name : String)
    (filter : Filter) (options : Options) :
    Except Err (DeleteResult × GoMongoDB) :=
  match h.connect with
  | Except.error e => Except.error e
  | Except.ok h2 =>
    match (h2.collection database_name collection_name).deleteMany filter options with
    | Except.error e => Except.error e
    | Except.ok r => Except.ok (r.1, { client := r.2 })

/-- The URL of the client after an operation returning a result and a handle;
on a thrown error the fallback is reported. -/
def urlAfter {α : Type} (fallback : String) (r : Except Err (α × GoMongoDB)) : String :=
  match r with
  | Except.ok x => x.2.client.url
  | Except.error _ => fallback

/-- The URL of the client after an operation returning the handle itself;
on a thrown error the fallback is reported. -/
def urlAfterHandle (fallback : String) (r : Except Err GoMongoDB) : String :=
  match r with
  | Except.ok h2 => h2.client.url
  | Except.error _ => fallback

/-- A sample store with one collection holding two documents. -/
def sampleStore : Store :=
  [(("db", "coll"), [[("id", "1"), ("name", "a")], [("id", "2"), ("name", "b")]])]

/-- A sample unconnected, fault-free client over `sampleStore`. -/
def sampleClient : MongoClient :=
  { url := "mongodb://localhost:27017", connected := false, closed := false,
    connectCalls := 0, store := sampleStore, connectError := none, findError := none,
    updateError := none, insertError := none, deleteError := none }

/-- A sample handle over `sampleClient`. -/
def sampleHandle : GoMongoDB :=
  { client := sampleClient }

/-- The sample handle after its first connect. -/
def sampleConnected : GoMongoDB :=
  { client := { sampleClient with connected := true, connectCalls := 1 } }

/-- A sample client with a failure injected into every driver primitive slot except
connect, so the connect step succeeds and each operation fails in the driver call. -/
def faultyOpsClient : MongoClient :=
  { sampleClient with
      findError := some "boom", updateError := some "boom",
      insertError := some "boom", deleteError := some "boom" }

/-- A sample client whose connect attempt fails. -/
def faultyConnClient : MongoClient :=
  { sampleClient with connectError := some "no route to host" }

end GoMongo

namespace GoMongo

theorem matchesFilter_nil (doc : Doc) : matchesFilter [] doc = true := rfl

theorem filter_matchesFilter_nil (l : List Doc) : l.filter (matchesFilter []) = l := by
  simp [matchesFilter]

theorem getColl_setColl (s : Store) (db coll : String) (docs : List Doc) :
    getColl (setColl s db coll docs) db coll = docs := by
  induction s with
  | nil => simp [setColl, getColl]
  | cons e rest ih =>
    by_cases he : e.1 == (db, coll)
    · simp [setColl, getColl, he]
    · simp [setColl, getColl, he, ih]

theorem connect_ok_spec (h h2 : GoMongoDB) (hc : h.connect = Except.ok h2) :
    h2.client.connected = true ∧
    h2.client.store = h.client.store ∧
    h2.client.url = h.client.url ∧
    h2.client.findError = h.client.findError ∧
    h2.client.updateError = h.client.updateError ∧
    h2.client.insertError = h.client.insertError ∧
    h2.client.deleteError = h.client.deleteError ∧
    h2.client.connectCalls ≤ h.client.connectCalls + 1 := by
  unfold GoMongoDB.connect at hc
  cases hcb : h.client.connected with
  | true =>
    simp [MongoClient.isConnected, hcb] at hc
    subst hc
    exact ⟨hcb, rfl, rfl, rfl, rfl, rfl, rfl, Nat.le_succ _⟩
  | false =>
    simp [MongoClient.isConnected, hcb] at hc
    cases hce : h.client.connectError with
    | some e => rw [MongoClient.connect, hce] at hc; cases hc
    | none =>
      rw [MongoClient.connect, hce] at hc
      simp at hc
      subst hc
      exact ⟨rfl, rfl, rfl, rfl, rfl, rfl, rfl, Nat.le_refl _⟩

end GoMongo

namespace GoMongo

/-- Claim C7: for every connection URL, including malformed ones, constructing a handle
never itself throws: `GoMongoDB.make` is a total function that stores the URL in a
freshly instantiated, not-yet-connected client; any malformed-URL failure can only
surface at the subsequent connect step. -/
theorem construction_never_throws (url : String) :
    (GoMongoDB.make url).client = MongoClient.make url ∧
    (GoMongoDB.make url).client.url = url ∧
    (GoMongoDB.make url).client.connected = false ∧
    (GoMongoDB.make url).client.connectCalls = 0 :=
  ⟨rfl, rfl, rfl, rfl⟩

/-- Claim C8: collection(d, c) equals resolving the database d first and then the
collection c within it; both lookups are total pure functions of the names, performing
no validation and raising no error of their own. -/
theorem collection_is_composed_lookup (h : GoMongoDB) (d c : String) :
    h.collection d c = (h.database d).collection c ∧
    h.database d = { client := h.client, name := d } ∧
    h.collection d c = { client := h.client, dbName := d, collName := c } :=
  ⟨rfl, rfl, rfl⟩

theorem tryCatch_rethrow {α : Type} (body : Except Err α) :
    tryCatch body (fun error => Except.error error) = body := by
  cases body <;> rfl

/-- Claim C10: in each of the four data operations the try/catch is observably a no-op:
the catch clause rethrows exactly the caught error, so every operation equals its body
with the try/catch removed (connect, then direct delegation to the driver). -/
theorem try_catch_observably_removed (h : GoMongoDB) (d c : String) (f : Filter)
    (u : UpdateSpec) (items : List Doc) (o : Options) :
    h.find d c f = h.findDirect d c f ∧
    h.update d c f u o = h.updateDirect d c f u o ∧
    h.add d c items o = h.addDirect d c items o ∧
    h.remove d c f o = h.removeDirect d c f o :=
  ⟨tryCatch_rethrow _, tryCatch_rethrow _, tryCatch_rethrow _, tryCatch_rethrow _⟩

/-- Claim C4: connect is idempotent.  Whenever a connect call succeeds, a second call
returns the same handle unchanged (so two successive calls make at most one underlying
client connect call, witnessed by the connect-call counter growing by at most one), and
on an already-connected handle connect returns the handle itself untouched. -/
theorem connect_idempotent (h h2 : GoMongoDB) (hok : h.connect = Except.ok h2) :
    h2.connect = Except.ok h2 ∧
    h2.client.connectCalls ≤ h.client.connectCalls + 1 ∧
    (h.client.connected = true → h2 = h) := by
  have hs := connect_ok_spec h h2 hok
  refine ⟨?_, hs.2.2.2.2.2.2.2, ?_⟩
  · unfold GoMongoDB.connect
    simp [MongoClient.isConnected, hs.1]
  · intro hcb
    unfold GoMongoDB.connect at hok
    simp [MongoClient.isConnected, hcb] at hok
    exact hok.symm

theorem connect_idempotent_witness :
    sampleConnected.connect = Except.ok sampleConnected ∧
    sampleConnected.client.connectCalls ≤ sampleHandle.client.connectCalls + 1 ∧
    (sampleHandle.client.connected = true → sampleConnected = sampleHandle) :=
  connect_idempotent sampleHandle sampleConnected rfl

/-- Claim C5: every data operation propagates any failure of the underlying client to
the caller unchanged: a connection failure aborts each of the four operations with
exactly the injected error, and a failure in the delegated driver call (find, updateMany,
insertMany, deleteMany) is returned to the caller as exactly that error — no wrapping,
no translation, no retry, no success result hiding the failure. -/
theorem failures_propagated_unchanged (h : GoMongoDB) (d c : String) (f : Filter)
    (u : UpdateSpec) (items : List Doc) (o : Options) (e : Err) :
    (h.client.connected = false → h.client.connectError = some e →
      h.find d c f = Except.error e ∧
      h.update d c f u o = Except.error e ∧
      h.add d c items o = Except.error e ∧
      h.remove d c f o = Except.error e) ∧
    (h.client.connectError = none →
      (h.client.findError = some e → h.find d c f = Except.error e) ∧
      (h.client.updateError = some e → h.update d c f u o = Except.error e) ∧
      (h.client.insertError = some e → h.add d c items o = Except.error e) ∧
      (h.client.deleteError = some e → h.remove d c f o = Except.error e)) := by
  constructor
  · intro hcb hce
    refine ⟨?_, ?_, ?_, ?_⟩ <;>
      simp [GoMongoDB.find, GoMongoDB.update, GoMongoDB.add, GoMongoDB.remove,
        GoMongoDB.connect, MongoClient.isConnected, MongoClient.connect, hcb, hce,
        tryCatch]
  · intro hce
    refine ⟨?_, ?_, ?_, ?_⟩ <;> intro he <;>
      cases hcb : h.client.connected <;>
        simp [GoMongoDB.find, GoMongoDB.update, GoMongoDB.add, GoMongoDB.remove,
          GoMongoDB.connect, MongoClient.isConnected, MongoClient.connect,
          GoMongoDB.collection, GoMongoDB.database, MongoClient.db, Db.collection,
          Collection.find, Cursor.toArray, Collection.updateMany, Collection.insertMany,
          Collection.deleteMany, tryCatch, hcb, hce, he]

/-- The faulty-connect client wrapped in a handle. -/
def faultyConnHandle : GoMongoDB :=
  { client := faultyConnClient }

/-- The faulty-operations client wrapped in a handle. -/
def faultyOpsHandle : GoMongoDB :=
  { client := faultyOpsClient }

theorem failures_propagated_unchanged_witness :
    faultyConnHandle.find "db" "coll" [] = Except.error "no route to host" ∧
    faultyConnHandle.update "db" "coll" [] [] [] = Except.error "no route to host" ∧
    faultyConnHandle.add "db" "coll" [] [] = Except.error "no route to host" ∧
    faultyConnHandle.remove "db" "coll" [] [] = Except.error "no route to host" :=
  (failures_propagated_unchanged faultyConnHandle "db" "coll" [] [] [] []
    "no route to host").1 rfl rfl

end GoMongo

namespace GoMongo

/-- Claim C1: find first ensures the client is connected (the handle it threads on is
connected afterwards), then returns the full ordered list of documents matching the
filter, eagerly materialized (the result type is a list, not a cursor); with the empty
filter it returns every document of the target collection. -/
theorem find_returns_all_matching (h h2 : GoMongoDB) (d c : String) (f : Filter)
    (hok : h.connect = Except.ok h2) (hfe : h.client.findError = none) :
    h.find d c f =
      Except.ok ((getColl h.client.store d c).filter (matchesFilter f), h2) ∧
    h2.client.connected = true ∧
    h2.client.store = h.client.store ∧
    (f = [] → h.find d c f = Except.ok (getColl h.client.store d c, h2)) := by
  have hs := connect_ok_spec h h2 hok
  have hmain : h.find d c f =
      Except.ok ((getColl h.client.store d c).filter (matchesFilter f), h2) := by
    unfold GoMongoDB.find
    rw [hok]
    simp [GoMongoDB.collection, GoMongoDB.database, MongoClient.db, Db.collection,
      Collection.find, Cursor.toArray, hs.2.2.2.1, hfe, tryCatch, hs.2.1]
  refine ⟨hmain, hs.1, hs.2.1, ?_⟩
  intro hf
  subst hf
  rw [hmain, filter_matchesFilter_nil]

theorem find_returns_all_matching_witness :
    sampleHandle.find "db" "coll" [] =
      Except.ok ((getColl sampleHandle.client.store "db" "coll").filter
        (matchesFilter []), sampleConnected) ∧
    sampleConnected.client.connected = true ∧
    sampleConnected.client.store = sampleHandle.client.store ∧
    (([] : Filter) = [] →
      sampleHandle.find "db" "coll" [] =
        Except.ok (getColl sampleHandle.client.store "db" "coll", sampleConnected)) :=
  find_returns_all_matching sampleHandle sampleConnected "db" "coll" [] rfl rfl

/-- Claim C2: update first ensures the client is connected, then applies the update
specification to every document matching the filter (matching documents are rewritten,
non-matching ones are untouched) and returns the driver's matched/modified result
summary; with the empty filter every document of the collection is updated. -/
theorem update_applies_to_all_matching (h h2 : GoMongoDB) (d c : String) (f : Filter)
    (u : UpdateSpec) (o : Options)
    (hok : h.connect = Except.ok h2) (hue : h.client.updateError = none) :
    ∃ h3 : GoMongoDB,
      h.update d c f u o =
        Except.ok
          ({ matchedCount := ((getColl h.client.store d c).filter (matchesFilter f)).length,
             modifiedCount := ((getColl h.client.store d c).filter
               (fun doc => matchesFilter f doc && applyUpdate u doc != doc)).length }, h3) ∧
      getColl h3.client.store d c =
        (getColl h.client.store d c).map
          (fun doc => if matchesFilter f doc then applyUpdate u doc else doc) ∧
      h3.client.connected = true ∧
      (f = [] →
        getColl h3.client.store d c = (getColl h.client.store d c).map (applyUpdate u)) := by
  have hs := connect_ok_spec h h2 hok
  have hue2 : h2.client.updateError = none := by rw [hs.2.2.2.2.1]; exact hue
  refine ⟨{ client := { h2.client with store := (setColl h2.client.store d c
      ((getColl h.client.store d c).map
        (fun doc => if matchesFilter f doc then applyUpdate u doc else doc))) } },
    ?_, ?_, hs.1, ?_⟩
  · unfold GoMongoDB.update
    rw [hok]
    simp [GoMongoDB.collection, GoMongoDB.database, MongoClient.db, Db.collection,
      Collection.updateMany, hue2, tryCatch, hs.2.1]
  · simp [getColl_setColl]
  · intro hf
    subst hf
    simp [getColl_setColl, matchesFilter_nil]

theorem update_applies_to_all_matching_witness :
    ∃ h3 : GoMongoDB,
      sampleHandle.update "db" "coll" [] [("name", "z")] [] =
        Except.ok
          ({ matchedCount := ((getColl sampleHandle.client.store "db" "coll").filter
               (matchesFilter [])).length,
             modifiedCount := ((getColl sampleHandle.client.store "db" "coll").filter
               (fun doc => matchesFilter [] doc &&
                 applyUpdate [("name", "z")] doc != doc)).length }, h3) ∧
      getColl h3.client.store "db" "coll" =
        (getColl sampleHandle.client.store "db" "coll").map
          (fun doc => if matchesFilter [] doc then applyUpdate [("name", "z")] doc
            else doc) ∧
      h3.client.connected = true ∧
      (([] : Filter) = [] →
        getColl h3.client.store "db" "coll" =
          (getColl sampleHandle.client.store "db" "coll").map
            (applyUpdate [("name", "z")])) :=
  update_applies_to_all_matching sampleHandle sampleConnected "db" "coll" []
    [("name", "z")] [] rfl rfl

/-- Claim C3: remove first ensures the client is connected, then deletes every document
matching the filter (exactly the non-matching documents remain) and returns the
driver's deleted-count summary; with the empty filter the collection is emptied. -/
theorem remove_deletes_all_matching (h h2 : GoMongoDB) (d c : String) (f : Filter)
    (o : Options)
    (hok : h.connect = Except.ok h2) (hde : h.client.deleteError = none) :
    ∃ h3 : GoMongoDB,
      h.remove d c f o =
        Except.ok
          ({ deletedCount :=
               ((getColl h.client.store d c).filter (matchesFilter f)).length }, h3) ∧
      getColl h3.client.store d c =
        (getColl h.client.store d c).filter (fun doc => !(matchesFilter f doc)) ∧
      h3.client.connected = true ∧
      (f = [] → getColl h3.client.store d c = []) := by
  have hs := connect_ok_spec h h2 hok
  have hde2 : h2.client.deleteError = none := by rw [hs.2.2.2.2.2.2.1]; exact hde
  refine ⟨{ client := { h2.client with store := (setColl h2.client.store d c
      ((getColl h.client.store d c).filter (fun doc => !(matchesFilter f doc)))) } },
    ?_, ?_, hs.1, ?_⟩
  · unfold GoMongoDB.remove
    rw [hok]
    simp [GoMongoDB.collection, GoMongoDB.database, MongoClient.db, Db.collection,
      Collection.deleteMany, hde2, tryCatch, hs.2.1]
  · simp [getColl_setColl]
  · intro hf
    subst hf
    simp [getColl_setColl, matchesFilter_nil]

theorem remove_deletes_all_matching_witness :
    ∃ h3 : GoMongoDB,
      sampleHandle.remove "db" "coll" [] [] =
        Except.ok
          ({ deletedCount :=
               ((getColl sampleHandle.client.store "db" "coll").filter
                 (matchesFilter [])).length }, h3) ∧
      getColl h3.client.store "db" "coll" =
        (getColl sampleHandle.client.store "db" "coll").filter
          (fun doc => !(matchesFilter [] doc)) ∧
      h3.client.connected = true ∧
      (([] : Filter) = [] → getColl h3.client.store "db" "coll" = []) :=
  remove_deletes_all_matching sampleHandle sampleConnected "db" "coll" [] [] rfl rfl

/-- Claim C6: add first ensures the client is connected, then inserts each item in the
given order at the end of the collection and returns the insertion summary; with an
empty item sequence it still performs the insert call with zero items, does not throw
(it returns a success result with inserted count zero) and leaves the collection
unchanged. -/
theorem add_inserts_in_order (h h2 : GoMongoDB) (d c : String) (items : List Doc)
    (o : Options)
    (hok : h.connect = Except.ok h2) (hie : h.client.insertError = none) :
    ∃ h3 : GoMongoDB,
      h.add d c items o = Except.ok ({ insertedCount := items.length }, h3) ∧
      getColl h3.client.store d c = getColl h.client.store d c ++ items ∧
      h3.client.connected = true ∧
      (items = [] →
        h.add d c items o = Except.ok ({ insertedCount := 0 }, h3) ∧
        getColl h3.client.store d c = getColl h.client.store d c) := by
  have hs := connect_ok_spec h h2 hok
  have hie2 : h2.client.insertError = none := by rw [hs.2.2.2.2.2.1]; exact hie
  have hmain : h.add d c items o =
      Except.ok ({ insertedCount := items.length },
        ({ client := { h2.client with store := (setColl h2.client.store d c
            (getColl h.client.store d c ++ items)) } } : GoMongoDB)) := by
    unfold GoMongoDB.add
    rw [hok]
    simp [GoMongoDB.collection, GoMongoDB.database, MongoClient.db, Db.collection,
      Collection.insertMany, hie2, tryCatch, hs.2.1]
  refine ⟨{ client := { h2.client with store := (setColl h2.client.store d c
      (getColl h.client.store d c ++ items)) } }, hmain, ?_, hs.1, ?_⟩
  · simp [getColl_setColl]
  · intro hi
    subst hi
    refine ⟨by simpa using hmain, ?_⟩
    simp [getColl_setColl]

theorem add_inserts_in_order_witness :
    ∃ h3 : GoMongoDB,
      sampleHandle.add "db" "coll" [] [] =
        Except.ok ({ insertedCount := List.length ([] : List Doc) }, h3) ∧
      getColl h3.client.store "db" "coll" =
        getColl sampleHandle.client.store "db" "coll" ++ [] ∧
      h3.client.connected = true ∧
      (([] : List Doc) = [] →
        sampleHandle.add "db" "coll" [] [] = Except.ok ({ insertedCount := 0 }, h3) ∧
        getColl h3.client.store "db" "coll" =
          getColl sampleHandle.client.store "db" "coll") :=
  add_inserts_in_order sampleHandle sampleConnected "db" "coll" [] [] rfl rfl

end GoMongo

namespace GoMongo

/-- Claim C9: the handle's underlying client is fixed for its lifetime: no operation —
connect, destroy, database, collection (both resolving views of the same client), find,
update, add or remove — replaces it with a client of a different connection URL; on a
thrown error there is no replacement handle at all. -/
theorem client_reference_fixed (h : GoMongoDB) (d c : String) (f : Filter)
    (u : UpdateSpec) (items : List Doc) (o : Options) :
    urlAfterHandle h.client.url h.connect = h.client.url ∧
    urlAfterHandle h.client.url h.destroy = h.client.url ∧
    (h.database d).client.url = h.client.url ∧
    (h.collection d c).client.url = h.client.url ∧
    urlAfter h.client.url (h.find d c f) = h.client.url ∧
    urlAfter h.client.url (h.update d c f u o) = h.client.url ∧
    urlAfter h.client.url (h.add d c items o) = h.client.url ∧
    urlAfter h.client.url (h.remove d c f o) = h.client.url := by
  refine ⟨?_, ?_, rfl, rfl, ?_, ?_, ?_, ?_⟩ <;>
  · cases hcb : h.client.connected <;>
    cases hce : h.client.connectError <;>
    cases hfe : h.client.findError <;>
    cases hue : h.client.updateError <;>
    cases hie : h.client.insertError <;>
    cases hde : h.client.deleteError <;>
    simp [GoMongoDB.connect, GoMongoDB.destroy, GoMongoDB.find, GoMongoDB.update,
      GoMongoDB.add, GoMongoDB.remove, MongoClient.isConnected, MongoClient.connect,
      MongoClient.close, GoMongoDB.collection, GoMongoDB.database, MongoClient.db,
      Db.collection, Collection.find, Cursor.toArray, Collection.updateMany,
      Collection.insertMany, Collection.deleteMany, tryCatch, urlAfter, urlAfterHandle,
      hcb, hce, hfe, hue, hie, hde]

end GoMongo
